import Mathlib

/-!
Verification of the navigation component of `ern-navigation`
(`src/components/navigation-component.js`), a screen-registration and
navigation-bar-button-routing layer.

The JavaScript source is shallowly embedded: JS strings become `String`,
optional JS object fields become `Option`, JS objects become structures,
thrown errors become an inductive error type returned through `Except`,
and the outbound host-channel calls become the payload value a function
returns (returning an error means no channel call was issued).

JS truthiness is modelled where the source branches on it: for strings
only `""` is falsy, for objects and arrays any present value is truthy,
and an absent value (`undefined`) is falsy.
-/

namespace ErnNavigation

/-! ## Button-ID codec

`encode` models the template `` `${routeName}.${id}` `` used in
`_localizeNavigationBar` (lines 234, 242); `unlocalizeButtonId` models
`_unlocalizeButtonId` (line 178, `buttonId.substring(this.route.length + 1)`);
`lastIndexOfDot` models `buttonId.lastIndexOf('.')` (line 188) as an
`Option Nat` instead of a `-1` sentinel; `ownerRoute` models the
`buttonRoute` computation of `_shouldDispatchButtonPressEvent` (line 189):
everything before the last dot, the empty string when there is none. -/

def encode (route localId : String) : String :=
  route ++ "." ++ localId

def unlocalizeButtonId (route buttonId : String) : String :=
  ⟨buttonId.data.drop (route.length + 1)⟩

/-- Index of the last `'.'` of the list, `none` when there is none
(models `String.prototype.lastIndexOf('.')`, whose `-1` becomes `none`). -/
def lastIndexOfDot : List Char → Option Nat
  | [] => none
  | c :: cs =>
    match lastIndexOfDot cs with
    | some i => some (i + 1)
    | none => if c = '.' then some 0 else none

def ownerRoute (buttonId : String) : String :=
  match lastIndexOfDot buttonId.data with
  | some i => ⟨buttonId.data.take i⟩
  | none => ""

/-- Models `_shouldDispatchButtonPressEvent` (lines 187-191): dispatch
iff the owner route of the qualified id equals the registered route. -/
def shouldDispatchButtonPressEvent (route buttonId : String) : Bool :=
  ownerRoute buttonId == route

/-- Models `_handleNavButtonPress` (lines 204-212) for a class registered
under `route`: the result is the local id passed to the class's
`onNavButtonPress` handler, or `none` when the event is ignored.  (A
handler is always available: the base class provides a static default,
so the `if (handler)` guard of line 208 is always taken.) -/
def handleNavButtonPress (route buttonId : String) : Option String :=
  if shouldDispatchButtonPressEvent route buttonId then
    some (unlocalizeButtonId route buttonId)
  else
    none

/-! ## Navigation-bar data model

Typed counterparts of the `Button`, `LeftButton` and `NavigationBar`
JSDoc typedefs (lines 44-68).  Optional JS fields become `Option`; the
`Button.id` field is required (`@property {!string} id`). -/

structure Button where
  icon : Option String := none
  title : Option String := none
  id : String
  accessibilityLabel : Option String := none
  location : Option String := none
deriving DecidableEq, Repr

structure LeftButton where
  icon : Option String := none
  title : Option String := none
  id : Option String := none
  accessibilityLabel : Option String := none
deriving DecidableEq, Repr

structure NavigationBar where
  title : Option String := none
  overlay : Option Bool := none
  buttons : Option (List Button) := none
  leftButton : Option LeftButton := none
deriving DecidableEq, Repr

/-! ## Navigation-bar localizer: `_localizeNavigationBar` (lines 224-246) -/

/-- The `leftButton` branch (lines 230-237): keep all fields, replace `id`
by the qualified id when the source id is truthy (present and non-empty —
JS `navigationBar.leftButton.id ? ... : undefined`), by `undefined`
otherwise. -/
def localizeLeftButton (routeName : String) (lb : LeftButton) : LeftButton :=
  { lb with
    id := match lb.id with
      | some i => if i = "" then none else some (encode routeName i)
      | none => none }

/-- The `buttons.map` body (lines 239-243): keep all fields, force
`location` to `"right"` and qualify `id`. -/
def localizeButton (routeName : String) (b : Button) : Button :=
  { b with location := some "right", id := encode routeName b.id }

/-- Models `_localizeNavigationBar` (lines 224-246).  A falsy bar yields the
empty object (line 226); otherwise the bar is shallow-copied with
`leftButton` and `buttons` rebuilt.  An absent `leftButton` or `buttons`
stays absent (`undefined` branches, lines 237 and 244); a present but
empty `buttons` array is truthy in JS, so it is still mapped. -/
def localizeNavigationBar (routeName : String) (navigationBar : Option NavigationBar) :
    NavigationBar :=
  match navigationBar with
  | none => {}
  | some bar =>
    { bar with
      leftButton := bar.leftButton.map (localizeLeftButton routeName),
      buttons := bar.buttons.map (fun bs => bs.map (localizeButton routeName)) }

/-- Destructuring `{overlay, ...rest} = bar; rest` — removing the `overlay` field. -/
def stripOverlay (b : NavigationBar) : NavigationBar :=
  { b with overlay := none }

/-- The payload sent to the host update channel
(`EnNavigationApi.requests().update`). -/
structure UpdatePayload where
  path : String
  navigationBar : NavigationBar
deriving DecidableEq, Repr

/-- Models `updateNavigationBar` (lines 333-346): localize the bar against the
registered route, destructure `overlay` away, and send
`{path, navigationBar}` to the update channel.  The returned payload is
exactly the value handed to the channel. -/
def updateNavigationBar (route : String) (navigationBar : Option NavigationBar) :
    UpdatePayload :=
  { path := route,
    navigationBar := stripOverlay (localizeNavigationBar route navigationBar) }

/-! ## Screen descriptor (navigation-bar build)

A registered screen class, as the registry stores it: its registered
route, its static `navigationOptions`, and the value its
`getDynamicTitle(jsonPayload)` hook returns for the payload being
passed (the hook's default, line 289, returns nothing — `none`). -/

structure ScreenDescriptor where
  route : String := ""
  navigationOptions : Option NavigationBar :=
    some { title := some "Untitled", buttons := some [] }
  dynamicTitle : Option String := none
deriving DecidableEq, Repr

/-- JS `a || b` on strings: `a` when present and non-empty, else `b`. -/
def jsOrStr (a b : Option String) : Option String :=
  match a with
  | some s => if s = "" then b else some s
  | none => b

/-- Models `_getNavigationBar` (lines 256-263): spread `navigationOptions`
(`{...undefined}` is the empty object) and override `title` with
`getDynamicTitle(jsonPayload) || (navigationOptions || {}).title`. -/
def getNavigationBar (s : ScreenDescriptor) : NavigationBar :=
  { s.navigationOptions.getD {} with
    title := jsOrStr s.dynamicTitle ((s.navigationOptions.getD {}).title) }

/-- Models `_getLocalizedNavigationBar` (lines 274-279). -/
def getLocalizedNavigationBar (s : ScreenDescriptor) : NavigationBar :=
  localizeNavigationBar s.route (some (getNavigationBar s))

/-! ## Navigation gateway: `navigateInternal` (lines 373-408) and
`backTo` (lines 420-449)

The `errors` object (lines 70-80) defines exactly four error kinds; both
the "navigator not set" check and the "not an `instanceof AppNavigator`"
check throw the same `errors.invalidAppNavigator` value. -/

inductive NavError where
  | invalidAppNavigator
  | noValidScreens
  | noScreenName
  | invalidScreenName (screenName : String)
deriving DecidableEq, Repr

/-- The App Navigator collaborator: its `screens` mapping (screen name to
screen descriptor), which may itself be absent. -/
structure AppNavigator where
  screens : Option (List (String × ScreenDescriptor)) := none
deriving DecidableEq, Repr

/-- What `getAppNavigator()` returns: nothing (falsy), an object that is
not an `instanceof AppNavigator`, or an App Navigator. -/
inductive AttachedNavigator where
  | missing
  | notAppNavigator
  | nav (a : AppNavigator)
deriving DecidableEq, Repr

/-- The payload handed to the host navigate channel
(`EnNavigationApi.requests().navigate`, line 407).  `jsonPayload` holds
the serialized payload (`JSON.stringify(jsonPayload || {})`). -/
structure NavigatePayload where
  path : String
  overlay : Option Bool
  navigationBar : NavigationBar
  jsonPayload : String
deriving DecidableEq, Repr

/-- The payload handed to the host back channel (lines 444-448). -/
structure BackPayload where
  path : String
deriving DecidableEq, Repr

/-- Models `navigateInternal` (lines 373-408).  The five precondition checks run
in source order; the first failing one throws (an `error` result) before
any payload is built, so no channel call happens and no state is written
(the source function only reads state).  On success the built payload is
returned: it is exactly the argument of the single
`EnNavigationApi.requests().navigate` call.  The serialized payload is
passed in as `jsonPayload`; `none` models an absent argument, serialized
as `"\x7b\x7d"` (the empty JSON object). -/
def navigateInternal (att : AttachedNavigator) (screenName : String)
    (jsonPayload : Option String) : Except NavError NavigatePayload :=
  match att with
  | .missing => .error .invalidAppNavigator
  | .notAppNavigator => .error .invalidAppNavigator
  | .nav a =>
    match a.screens with
    | none => .error .noValidScreens
    | some scrs =>
      if scrs.length < 1 then .error .noValidScreens
      else if screenName = "" then .error .noScreenName
      else
        match scrs.lookup screenName with
        | none => .error (.invalidScreenName screenName)
        | some nav =>
          let locBar := getLocalizedNavigationBar nav
          .ok { path := nav.route,
                overlay := locBar.overlay,
                navigationBar := stripOverlay locBar,
                jsonPayload := jsonPayload.getD "\x7b\x7d" }

/-- Models `backTo` (lines 420-449): the same validation block, then
`{path: target.getRegisteredRoute()}` to the host back channel. -/
def backTo (att : AttachedNavigator) (screenName : String) :
    Except NavError BackPayload :=
  match att with
  | .missing => .error .invalidAppNavigator
  | .notAppNavigator => .error .invalidAppNavigator
  | .nav a =>
    match a.screens with
    | none => .error .noValidScreens
    | some scrs =>
      if scrs.length < 1 then .error .noValidScreens
      else if screenName = "" then .error .noScreenName
      else
        match scrs.lookup screenName with
        | none => .error (.invalidScreenName screenName)
        | some nav => .ok { path := nav.route }

/-! ## Route registration: `setRegisteredRoute` (lines 128-138) and
`getRegisteredRoute` (lines 146-148)

The class-level `route` starts as `''` (line 86).  `setRegisteredRoute`
assigns only when the current route is falsy (for strings: empty);
otherwise it leaves the route untouched and warns.  The state is the
stored route; the returned `Bool` records whether the warning was
emitted. -/

def setRegisteredRoute (current route : String) : String × Bool :=
  if current = "" then (route, false) else (current, true)

def getRegisteredRoute (route : String) : String :=
  route

/-- A sequence of further `setRegisteredRoute` calls, applied in order. -/
def applyRegistrations : String → List String → String
  | s, [] => s
  | s, r :: rs => applyRegistrations (setRegisteredRoute s r).1 rs

/-! ## Event-listener lifecycle (constructor lines 93-104,
`componentWillUnmount` lines 106-112)

The constructor runs `if (!this.headerListener) { this.headerListener =
...addOnNavButtonClickEventListener(...) }`.  `this` is the fresh
instance; a property read on it consults the instance's own properties
and its prototype chain.  The class field `static headerListener`
(line 84) is a property of the constructor function, which is *not* on
that chain, so the read never sees it and the assignment creates an
instance-level property.  The state below tracks the class field, each
constructed instance's own `headerListener` property, and the set of
listener handles currently subscribed on the event stream. -/

structure ScreenClassState where
  headerListenerStatic : Option Nat := none
  instanceOwn : List (Option Nat) := []
  active : List Nat := []
  nextHandle : Nat := 0
deriving DecidableEq, Repr

/-- JS property lookup of `this.headerListener`: the instance's own
property wins and the class static field is never consulted (it lives on
the constructor function, not on the prototype chain). -/
def readHeaderListener (own _staticField : Option Nat) : Option Nat :=
  own

/-- One run of the constructor (lines 93-104).  A fresh instance has no
own `headerListener` property, so the read yields `none` and a new
listener is subscribed and stored on the instance. -/
def constructInstance (s : ScreenClassState) : ScreenClassState :=
  match readHeaderListener none s.headerListenerStatic with
  | none =>
    { s with
      instanceOwn := s.instanceOwn ++ [some s.nextHandle],
      active := s.active ++ [s.nextHandle],
      nextHandle := s.nextHandle + 1 }
  | some _ => { s with instanceOwn := s.instanceOwn ++ [none] }

/-- Models `componentWillUnmount` (lines 106-112) for the instance at index
`i`: if the instance's own `headerListener` is set, remove that handle
from the stream. -/
def unmountInstance (s : ScreenClassState) (i : Nat) : ScreenClassState :=
  match (s.instanceOwn.getD i none) with
  | some handle => { s with active := s.active.filter (fun x => x ≠ handle) }
  | none => s

/-- Runs `n` successive constructions of instances of one screen class. -/
def constructN : Nat → ScreenClassState → ScreenClassState
  | 0, s => s
  | n + 1, s => constructN n (constructInstance s)

/-! ## Object-heap model of `_localizeNavigationBar` (lines 224-246)

To reason about mutation and freshness, `_localizeNavigationBar` is
additionally embedded over an explicit object heap.  Button objects and
bar objects live in two stores addressed by index; a bar holds
references to its `leftButton` object and to the objects of its
`buttons` array.  The JS spread syntax (`{...obj, f: v}`) and object
literals allocate new objects, so each is an `alloc` that appends to the
store; the source contains no field assignment to an existing object,
so no store cell is ever overwritten.  Unlike the typed model above, a
heap button's `id` may be absent, and the template literal
`` `${routeName}.${button.id}` `` then interpolates the string
`"undefined"` — `jsTemplateStr` models that. -/

structure JsButtonObj where
  icon : Option String := none
  title : Option String := none
  id : Option String := none
  accessibilityLabel : Option String := none
  location : Option String := none
deriving DecidableEq, Repr

structure JsBarObj where
  title : Option String := none
  overlay : Option Bool := none
  buttons : Option (List Nat) := none
  leftButton : Option Nat := none
deriving DecidableEq, Repr

structure Heap where
  buttonObjs : List JsButtonObj := []
  barObjs : List JsBarObj := []
deriving DecidableEq, Repr

/-- Allocate a fresh button object; its reference is the next free
index. -/
def allocButton (h : Heap) (b : JsButtonObj) : Heap × Nat :=
  ({ h with buttonObjs := h.buttonObjs ++ [b] }, h.buttonObjs.length)

/-- Allocate a fresh bar object; its reference is the next free index. -/
def allocBar (h : Heap) (b : JsBarObj) : Heap × Nat :=
  ({ h with barObjs := h.barObjs ++ [b] }, h.barObjs.length)

/-- JS template-literal interpolation of a possibly absent string. -/
def jsTemplateStr : Option String → String
  | none => "undefined"
  | some s => s

/-- Field values of the fresh left-button object of lines 231-236. -/
def localizeLeftButtonObj (routeName : String) (lb : JsButtonObj) : JsButtonObj :=
  { lb with
    id := match lb.id with
      | some i => if i = "" then none else some (encode routeName i)
      | none => none }

/-- Field values of the fresh button objects of lines 239-243. -/
def localizeButtonObj (routeName : String) (b : JsButtonObj) : JsButtonObj :=
  { b with
    location := some "right",
    id := some (routeName ++ "." ++ jsTemplateStr b.id) }

/-- Models `navigationBar.buttons.map(...)` (lines 239-243): allocate one fresh
localized button object per source reference, left to right. -/
def localizeButtonsObjs (routeName : String) : Heap → List Nat → Heap × List Nat
  | h, [] => (h, [])
  | h, bref :: rest =>
    let src := h.buttonObjs.getD bref {}
    let alloc1 := allocButton h (localizeButtonObj routeName src)
    let restOut := localizeButtonsObjs routeName alloc1.1 rest
    (restOut.1, alloc1.2 :: restOut.2)

/-- The `leftButton` expression (lines 230-237): when a left button is
referenced, allocate its localized copy; otherwise `undefined`. -/
def localizeLeftButtonStep (h : Heap) (routeName : String) (lb : Option Nat) :
    Heap × Option Nat :=
  match lb with
  | some lbRef =>
    let a := allocButton h (localizeLeftButtonObj routeName (h.buttonObjs.getD lbRef {}))
    (a.1, some a.2)
  | none => (h, none)

/-- The `buttons` expression (lines 238-244): map when the array is
present (truthy), `undefined` otherwise. -/
def localizeButtonsStep (h : Heap) (routeName : String) (btns : Option (List Nat)) :
    Heap × Option (List Nat) :=
  match btns with
  | some refs =>
    let m := localizeButtonsObjs routeName h refs
    (m.1, some m.2)
  | none => (h, none)

/-- Models `_localizeNavigationBar` on the heap: a falsy bar allocates the
empty object (line 226); otherwise the source bar is read, its left
button and buttons are localized into fresh objects, and the spread
`{...navigationBar, leftButton: ..., buttons: ...}` allocates the fresh
result bar.  Returns the new heap and the reference of the result. -/
def localizeNavigationBarObj (h : Heap) (routeName : String) (bar : Option Nat) :
    Heap × Nat :=
  match bar with
  | none => allocBar h {}
  | some bref =>
    let src := h.barObjs.getD bref {}
    let lbOut := localizeLeftButtonStep h routeName src.leftButton
    let btnsOut := localizeButtonsStep lbOut.1 routeName src.buttons
    allocBar btnsOut.1 { src with leftButton := lbOut.2, buttons := btnsOut.2 }

/-! ### Sample data used by witness theorems -/

def sampleLeftButtonNoId : LeftButton :=
  { icon := some "back-icon" }

def sampleBarWithLeftButton : NavigationBar :=
  { title := some "Details", leftButton := some sampleLeftButtonNoId }

def sampleButton : Button :=
  { id := "exit", icon := some "exit-icon", accessibilityLabel := some "Exit this app" }

def sampleBarWithButtons : NavigationBar :=
  { title := some "Main", buttons := some [sampleButton] }

/-- An App Navigator whose `screens` mapping is present but empty. -/
def emptyRegistryNavigator : AppNavigator :=
  { screens := some [] }

/-! ## Helper list lemmas -/

theorem take_length_append {α : Type} (l₁ l₂ : List α) : (l₁ ++ l₂).take l₁.length = l₁ := by
  induction l₁ with
  | nil => rfl
  | cons c cs ih => simp [List.take, ih]

theorem drop_length_append (l₁ l₂ : List Char) : (l₁ ++ l₂).drop l₁.length = l₂ := by
  induction l₁ with
  | nil => rfl
  | cons c cs ih => simp [ih]

theorem lastIndexOfDot_cons (c : Char) (cs : List Char) :
    lastIndexOfDot (c :: cs) =
      match lastIndexOfDot cs with
      | some i => some (i + 1)
      | none => if c = '.' then some 0 else none := rfl

theorem lastIndexOfDot_of_no_dot (l : List Char) (h : '.' ∉ l) :
    lastIndexOfDot l = none := by
  induction l with
  | nil => rfl
  | cons c cs ih =>
    have hc : ¬ c = '.' := fun hcc => h (hcc ▸ List.mem_cons_self c cs)
    have hcs : '.' ∉ cs := fun hm => h (List.mem_cons_of_mem c hm)
    rw [lastIndexOfDot_cons, ih hcs]
    simp [hc]

theorem lastIndexOfDot_append (l₁ l₂ : List Char) (i : Nat)
    (h : lastIndexOfDot l₂ = some i) :
    lastIndexOfDot (l₁ ++ l₂) = some (l₁.length + i) := by
  induction l₁ with
  | nil => simpa using h
  | cons c cs ih =>
    rw [List.cons_append, lastIndexOfDot_cons, ih]
    simp only [Option.some.injEq, List.length_cons]
    omega

theorem data_append (a b : String) : (a ++ b).data = a.data ++ b.data := rfl

theorem encode_data (route localId : String) :
    (encode route localId).data = route.data ++ '.' :: localId.data := by
  simp [encode, data_append]

theorem lastIndexOfDot_encode (route localId : String) (h : '.' ∉ localId.data) :
    lastIndexOfDot (encode route localId).data = some route.length := by
  rw [encode_data]
  have h2 : lastIndexOfDot ('.' :: localId.data) = some 0 := by
    rw [lastIndexOfDot_cons, lastIndexOfDot_of_no_dot localId.data h]
    simp
  have h3 := lastIndexOfDot_append route.data ('.' :: localId.data) 0 h2
  rw [h3, Nat.add_zero]
  rfl

/-- C1: round-trip of the button-id codec.  For every route `r` and local
id `x` containing no `'.'`: the owner route of `encode r x` is `r`, and
stripping the first `r.length + 1` characters of `encode r x` gives back
`x`. -/
theorem ownerRoute_encode_roundtrip (r x : String) (h : '.' ∉ x.data) :
    ownerRoute (encode r x) = r ∧ unlocalizeButtonId r (encode r x) = x := by
  constructor
  · have h2 : (encode r x).data.take r.length = r.data := by
      rw [encode_data]
      exact take_length_append r.data ('.' :: x.data)
    unfold ownerRoute
    rw [lastIndexOfDot_encode r x h]
    show String.mk ((encode r x).data.take r.length) = r
    rw [h2]
  · have h4 : (encode r x).data.drop (r.length + 1) = x.data := by
      rw [encode_data]
      have h5 := drop_length_append (r.data ++ ['.']) x.data
      have h6 : (r.data ++ ['.']).length = r.length + 1 := by
        rw [List.length_append]
        rfl
      rw [h6, List.append_assoc, List.singleton_append] at h5
      exact h5
    unfold unlocalizeButtonId
    rw [h4]

/-- Witness for C1 at `r = "route"`, `x = "save"`. -/
theorem ownerRoute_encode_roundtrip_witness :
    ('.' ∉ ("save" : String).data) ∧
      (ownerRoute (encode "route" "save") = "route" ∧
        unlocalizeButtonId "route" (encode "route" "save") = "save") :=
  ⟨by decide, ownerRoute_encode_roundtrip "route" "save" (by decide)⟩

/-- C2: demultiplexing.  A button-press event with qualified id `"A.save"`
is dispatched by the class registered under route `"A"` (its handler is
invoked with the local id `"save"`) and is ignored by the class
registered under route `"B"`. -/
theorem dispatch_only_to_owner :
    handleNavButtonPress "A" "A.save" = some "save" ∧
      handleNavButtonPress "B" "A.save" = none := by
  constructor <;> decide

/-- C6: the payload `updateNavigationBar` hands to the host update
channel is exactly `{path := r, navigationBar := localize r (bar without
overlay)}` and carries no `overlay` field: stripping `overlay` before
localizing and localizing then stripping produce the same sent bar. -/
theorem updateNavigationBar_payload (r : String) (b : NavigationBar) :
    updateNavigationBar r (some b) =
      { path := r, navigationBar := localizeNavigationBar r (some (stripOverlay b)) } ∧
    (updateNavigationBar r (some b)).navigationBar.overlay = none :=
  ⟨rfl, rfl⟩

/-- C7: a present `leftButton` lacking an `id` is localized to a
`leftButton` whose `id` stays absent — the missing id is never encoded
into a synthetic qualified id. -/
theorem localize_leftButton_id_absent (r : String) (b : NavigationBar) (lb : LeftButton)
    (hlb : b.leftButton = some lb) (hid : lb.id = none) :
    ∃ lb', (localizeNavigationBar r (some b)).leftButton = some lb' ∧ lb'.id = none := by
  refine ⟨localizeLeftButton r lb, ?_, ?_⟩
  · show b.leftButton.map (localizeLeftButton r) = some (localizeLeftButton r lb)
    rw [hlb, Option.map_some']
  · show (localizeLeftButton r lb).id = none
    rw [localizeLeftButton, hid]

/-- Witness for C7: a bar whose left button has an icon but no id. -/
theorem localize_leftButton_id_absent_witness :
    sampleBarWithLeftButton.leftButton = some sampleLeftButtonNoId ∧
      sampleLeftButtonNoId.id = none ∧
      ∃ lb', (localizeNavigationBar "home" (some sampleBarWithLeftButton)).leftButton = some lb' ∧
        lb'.id = none :=
  ⟨rfl, rfl,
    localize_leftButton_id_absent "home" sampleBarWithLeftButton sampleLeftButtonNoId rfl rfl⟩

/-- C8: every entry of a localized `buttons` array has `location`
forced to `"right"`, its `id` qualified by the route, and its other
fields (`icon`, `title`, `accessibilityLabel`) preserved. -/
theorem localize_buttons_right_encoded (r : String) (b : NavigationBar)
    (bs : List Button) (i : Nat) (hb : b.buttons = some bs) (hi : i < bs.length) :
    ∃ out : Button,
      ((localizeNavigationBar r (some b)).buttons.getD [])[i]? = some out ∧
      out.location = some "right" ∧
      out.id = encode r bs[i].id ∧
      out.icon = bs[i].icon ∧
      out.title = bs[i].title ∧
      out.accessibilityLabel = bs[i].accessibilityLabel := by
  refine ⟨localizeButton r bs[i], ?_, rfl, rfl, rfl, rfl, rfl⟩
  show ((b.buttons.map fun l => l.map (localizeButton r)).getD [])[i]? =
    some (localizeButton r bs[i])
  rw [hb, Option.map_some', Option.getD_some]
  rw [List.getElem?_map, List.getElem?_eq_getElem hi, Option.map_some']

/-- Witness for C8: a one-button bar, checked at index 0. -/
theorem localize_buttons_right_encoded_witness :
    sampleBarWithButtons.buttons = some [sampleButton] ∧
      0 < ([sampleButton] : List Button).length ∧
      ∃ out : Button,
        ((localizeNavigationBar "main" (some sampleBarWithButtons)).buttons.getD [])[0]? =
          some out ∧
        out.location = some "right" ∧
        out.id = encode "main" ([sampleButton] : List Button)[0].id ∧
        out.icon = ([sampleButton] : List Button)[0].icon ∧
        out.title = ([sampleButton] : List Button)[0].title ∧
        out.accessibilityLabel = ([sampleButton] : List Button)[0].accessibilityLabel :=
  ⟨rfl, by decide,
    localize_buttons_right_encoded "main" sampleBarWithButtons [sampleButton] 0 rfl
      (by decide)⟩

/-- C4 counterexample: the "no navigator attached" and "attached object
is not an App Navigator" checks of `navigateInternal` throw the *same*
error (`errors.invalidAppNavigator`, lines 70-73); the two failure
outcomes are not distinct error kinds. -/
theorem missing_and_invalid_navigator_same_error :
    navigateInternal AttachedNavigator.missing "home" none =
        Except.error NavError.invalidAppNavigator ∧
      navigateInternal AttachedNavigator.notAppNavigator "home" none =
        Except.error NavError.invalidAppNavigator ∧
      navigateInternal AttachedNavigator.missing "home" none =
        navigateInternal AttachedNavigator.notAppNavigator "home" none :=
  ⟨rfl, rfl, rfl⟩

/-- C4 (amended): the gateway validation of `navigateInternal` and
`backTo` fails with the single shared `invalidAppNavigator` error both
when no App Navigator is attached and when the attached object is not a
recognized App Navigator instance. -/
theorem gateway_navigator_error (screenName : String) (jsonPayload : Option String) :
    navigateInternal AttachedNavigator.missing screenName jsonPayload =
        Except.error NavError.invalidAppNavigator ∧
      navigateInternal AttachedNavigator.notAppNavigator screenName jsonPayload =
        Except.error NavError.invalidAppNavigator ∧
      backTo AttachedNavigator.missing screenName =
        Except.error NavError.invalidAppNavigator ∧
      backTo AttachedNavigator.notAppNavigator screenName =
        Except.error NavError.invalidAppNavigator :=
  ⟨rfl, rfl, rfl, rfl⟩

/-- C5: with a valid App Navigator attached whose registry is absent or
empty, `navigateInternal` fails with `noValidScreens`.  The `error`
result means the function throws before the navigate payload is built,
so no host-channel call is issued; the source function writes no state
on any path. -/
theorem navigateInternal_empty_registry (a : AppNavigator) (screenName : String)
    (jsonPayload : Option String) (h : a.screens = none ∨ a.screens = some []) :
    navigateInternal (AttachedNavigator.nav a) screenName jsonPayload =
      Except.error NavError.noValidScreens := by
  rcases h with h | h <;> simp [navigateInternal, h]

/-- Witness for C5: a navigator with a present but empty registry. -/
theorem navigateInternal_empty_registry_witness :
    (emptyRegistryNavigator.screens = none ∨ emptyRegistryNavigator.screens = some []) ∧
      navigateInternal (AttachedNavigator.nav emptyRegistryNavigator) "details" none =
        Except.error NavError.noValidScreens :=
  ⟨Or.inr rfl,
    navigateInternal_empty_registry emptyRegistryNavigator "details" none (Or.inr rfl)⟩

/-- Registering never overwrites a non-empty stored route, over any
sequence of further calls. -/
theorem applyRegistrations_of_ne (s : String) (hs : s ≠ "") (rs : List String) :
    applyRegistrations s rs = s := by
  induction rs with
  | nil => rfl
  | cons r rs ih =>
    show applyRegistrations (setRegisteredRoute s r).1 rs = s
    have hstep : (setRegisteredRoute s r).1 = s := by
      simp [setRegisteredRoute, hs]
    rw [hstep]
    exact ih

/-- C9: the first registration with a non-empty route `r` wins: the
stored route becomes `r`, any sequence of further `setRegisteredRoute`
calls leaves `getRegisteredRoute` at `r`, and each such further call
returns the old route together with the warning flag. -/
theorem setRegisteredRoute_first_wins (r r' : String) (h : r ≠ "") (rs : List String) :
    (setRegisteredRoute "" r).1 = r ∧
      getRegisteredRoute (applyRegistrations (setRegisteredRoute "" r).1 rs) = r ∧
      setRegisteredRoute r r' = (r, true) := by
  have h1 : (setRegisteredRoute "" r).1 = r := by simp [setRegisteredRoute]
  refine ⟨h1, ?_, ?_⟩
  · rw [h1]
    exact applyRegistrations_of_ne r h rs
  · simp [setRegisteredRoute, h]

/-- Witness for C9 at route `"home"` with two later registration
attempts. -/
theorem setRegisteredRoute_first_wins_witness :
    ("home" : String) ≠ "" ∧
      ((setRegisteredRoute "" "home").1 = "home" ∧
        getRegisteredRoute
            (applyRegistrations (setRegisteredRoute "" "home").1 ["other", "third"]) =
          "home" ∧
        setRegisteredRoute "home" "other" = ("home", true)) :=
  ⟨by decide, setRegisteredRoute_first_wins "home" "other" (by decide) ["other", "third"]⟩

/-- C3 counterexample: constructing two instances of one screen class
subscribes two listeners and never writes the class-level
`headerListener` field — the handle is not shared on the class, and more
than one subscription is active. -/
theorem two_instances_two_subscriptions :
    (constructN 2 {}).active.length = 2 ∧
      (constructN 2 {} : ScreenClassState).headerListenerStatic = none ∧
      ¬ (constructN 2 {}).active.length ≤ 1 :=
  ⟨rfl, rfl, by decide⟩

theorem constructN_counts (n : Nat) (s : ScreenClassState) :
    (constructN n s).active.length = s.active.length + n ∧
      (constructN n s).headerListenerStatic = s.headerListenerStatic ∧
      (constructN n s).instanceOwn.length = s.instanceOwn.length + n := by
  induction n generalizing s with
  | zero => simp [constructN]
  | succ n ih =>
    obtain ⟨h1, h2, h3⟩ := ih (constructInstance s)
    have ha : (constructInstance s).active.length = s.active.length + 1 := by
      simp [constructInstance, readHeaderListener]
    have hh : (constructInstance s).headerListenerStatic = s.headerListenerStatic := by
      simp [constructInstance, readHeaderListener]
    have hi : (constructInstance s).instanceOwn.length = s.instanceOwn.length + 1 := by
      simp [constructInstance, readHeaderListener]
    refine ⟨?_, ?_, ?_⟩
    · show (constructN n (constructInstance s)).active.length = s.active.length + (n + 1)
      rw [h1, ha]
      omega
    · show (constructN n (constructInstance s)).headerListenerStatic = s.headerListenerStatic
      rw [h2, hh]
    · show (constructN n (constructInstance s)).instanceOwn.length =
        s.instanceOwn.length + (n + 1)
      rw [h3, hi]
      omega

/-- C3 (amended): the subscription handle is stored on each instance,
not on the class.  Every construction of an instance subscribes a fresh
listener whose handle is saved as the instance's own `headerListener`
property, the class-level field is never written, and after `n`
constructions `n` subscriptions are active — one per live instance
rather than at most one per class. -/
theorem subscription_per_instance (n : Nat) :
    (constructN n {}).active.length = n ∧
      (constructN n {} : ScreenClassState).headerListenerStatic = none ∧
      (constructN n {}).instanceOwn.length = n := by
  obtain ⟨h1, h2, h3⟩ := constructN_counts n {}
  refine ⟨?_, ?_, ?_⟩
  · rw [h1]
    simp
  · rw [h2]
  · rw [h3]
    simp

theorem localizeButtonsObjs_extends (routeName : String) (refs : List Nat) (h : Heap) :
    (∃ ext, (localizeButtonsObjs routeName h refs).1.buttonObjs = h.buttonObjs ++ ext) ∧
      (localizeButtonsObjs routeName h refs).1.barObjs = h.barObjs := by
  induction refs generalizing h with
  | nil => exact ⟨⟨[], by simp [localizeButtonsObjs]⟩, rfl⟩
  | cons bref rest ih =>
    obtain ⟨⟨ext, hext⟩, hbar⟩ :=
      ih (allocButton h (localizeButtonObj routeName (h.buttonObjs.getD bref {}))).1
    refine ⟨⟨localizeButtonObj routeName (h.buttonObjs.getD bref {}) :: ext, ?_⟩, ?_⟩
    · show (localizeButtonsObjs routeName
          (allocButton h (localizeButtonObj routeName (h.buttonObjs.getD bref {}))).1
          rest).1.buttonObjs =
        h.buttonObjs ++ localizeButtonObj routeName (h.buttonObjs.getD bref {}) :: ext
      rw [hext]
      simp [allocButton]
    · show (localizeButtonsObjs routeName
          (allocButton h (localizeButtonObj routeName (h.buttonObjs.getD bref {}))).1
          rest).1.barObjs = h.barObjs
      rw [hbar]
      rfl

theorem localizeLeftButtonStep_extends (h : Heap) (routeName : String) (lb : Option Nat) :
    (∃ ext, (localizeLeftButtonStep h routeName lb).1.buttonObjs = h.buttonObjs ++ ext) ∧
      (localizeLeftButtonStep h routeName lb).1.barObjs = h.barObjs := by
  cases lb with
  | none => exact ⟨⟨[], by simp [localizeLeftButtonStep]⟩, rfl⟩
  | some lbRef =>
    exact ⟨⟨[localizeLeftButtonObj routeName (h.buttonObjs.getD lbRef {})], rfl⟩, rfl⟩

theorem localizeButtonsStep_extends (h : Heap) (routeName : String)
    (btns : Option (List Nat)) :
    (∃ ext, (localizeButtonsStep h routeName btns).1.buttonObjs = h.buttonObjs ++ ext) ∧
      (localizeButtonsStep h routeName btns).1.barObjs = h.barObjs := by
  cases btns with
  | none => exact ⟨⟨[], by simp [localizeButtonsStep]⟩, rfl⟩
  | some refs => exact localizeButtonsObjs_extends routeName refs h

theorem localizeNavigationBarObj_extends (h : Heap) (routeName : String)
    (bar : Option Nat) :
    (∃ e1, (localizeNavigationBarObj h routeName bar).1.buttonObjs = h.buttonObjs ++ e1) ∧
      (∃ b2, (localizeNavigationBarObj h routeName bar).1.barObjs = h.barObjs ++ [b2]) ∧
      (localizeNavigationBarObj h routeName bar).2 = h.barObjs.length := by
  cases bar with
  | none =>
    exact ⟨⟨[], by simp [localizeNavigationBarObj, allocBar]⟩, ⟨{}, rfl⟩, rfl⟩
  | some bref =>
    obtain ⟨⟨e1, he1⟩, hb1⟩ :=
      localizeLeftButtonStep_extends h routeName (h.barObjs.getD bref {}).leftButton
    obtain ⟨⟨e2, he2⟩, hb2⟩ :=
      localizeButtonsStep_extends
        (localizeLeftButtonStep h routeName (h.barObjs.getD bref {}).leftButton).1
        routeName (h.barObjs.getD bref {}).buttons
    refine ⟨⟨e1 ++ e2, ?_⟩,
      ⟨{ h.barObjs.getD bref {} with
          leftButton := (localizeLeftButtonStep h routeName
            (h.barObjs.getD bref {}).leftButton).2,
          buttons := (localizeButtonsStep
            (localizeLeftButtonStep h routeName (h.barObjs.getD bref {}).leftButton).1
            routeName (h.barObjs.getD bref {}).buttons).2 }, ?_⟩, ?_⟩
    · show (localizeButtonsStep
          (localizeLeftButtonStep h routeName (h.barObjs.getD bref {}).leftButton).1
          routeName (h.barObjs.getD bref {}).buttons).1.buttonObjs =
        h.buttonObjs ++ (e1 ++ e2)
      rw [he2, he1, List.append_assoc]
    · show (localizeButtonsStep
          (localizeLeftButtonStep h routeName (h.barObjs.getD bref {}).leftButton).1
          routeName (h.barObjs.getD bref {}).buttons).1.barObjs ++
          [{ h.barObjs.getD bref {} with
              leftButton := (localizeLeftButtonStep h routeName
                (h.barObjs.getD bref {}).leftButton).2,
              buttons := (localizeButtonsStep
                (localizeLeftButtonStep h routeName
                  (h.barObjs.getD bref {}).leftButton).1
                routeName (h.barObjs.getD bref {}).buttons).2 }] =
        h.barObjs ++
          [{ h.barObjs.getD bref {} with
              leftButton := (localizeLeftButtonStep h routeName
                (h.barObjs.getD bref {}).leftButton).2,
              buttons := (localizeButtonsStep
                (localizeLeftButtonStep h routeName
                  (h.barObjs.getD bref {}).leftButton).1
                routeName (h.barObjs.getD bref {}).buttons).2 }]
      rw [hb2, hb1]
    · show (localizeButtonsStep
          (localizeLeftButtonStep h routeName (h.barObjs.getD bref {}).leftButton).1
          routeName (h.barObjs.getD bref {}).buttons).1.barObjs.length = h.barObjs.length
      rw [hb2, hb1]

/-- C10: `_localizeNavigationBar` never mutates its input — every button
object and bar object existing before the call (in particular the input
bar, its `leftButton`, and every element of its `buttons` array, with
their original unqualified ids) is unchanged in the resulting heap — and
the returned bar is a freshly allocated object (the next free slot, not
any pre-existing reference). -/
theorem localizeNavigationBarObj_frame (h : Heap) (routeName : String)
    (bar : Option Nat) :
    (localizeNavigationBarObj h routeName bar).1.buttonObjs.take h.buttonObjs.length =
        h.buttonObjs ∧
      (localizeNavigationBarObj h routeName bar).1.barObjs.take h.barObjs.length =
        h.barObjs ∧
      (localizeNavigationBarObj h routeName bar).2 = h.barObjs.length := by
  obtain ⟨⟨e1, he1⟩, ⟨b2, hb⟩, href⟩ := localizeNavigationBarObj_extends h routeName bar
  refine ⟨?_, ?_, href⟩
  · rw [he1]
    exact take_length_append _ _
  · rw [hb]
    exact take_length_append _ _

end ErnNavigation
